import Mathlib

/-!
Verification of the soccer_predictor prediction and simulation engine.

This file gives a shallow embedding in Lean 4 of the numerical core of the
repository (Elo-style rating system, Poisson scoreline model, Monte-Carlo
simulators and the prediction-accuracy tracker) and proves or refutes the
specification claims about it.

Python floats are modelled as real numbers (exact real arithmetic); Python
dictionaries are modelled as functions into `Option`; randomness is modelled
by an explicit oracle supplying the drawn values.  Definitions follow the
Python source line by line; the source file and function is named above each
definition.
-/

namespace SoccerPredictor

/-! ## Rounding helper

Python `round(x, 4)` is modelled as rounding `x * 10^4` to the nearest
integer (Mathlib `round`) and dividing back.  `round(x)` (to an integer) is
modelled by `round`.  The counterexamples below never sit on a half-way
point, where Python banker's rounding and `round` could differ.
-/

noncomputable def round4 (x : ℝ) : ℝ := (round (x * 10000) : ℤ) / 10000

theorem round_mono_of_le {x y : ℝ} (h : x ≤ y) : round x ≤ round y := by
  rw [round_eq, round_eq]
  exact Int.floor_mono (by linarith)

theorem round4_mem_Icc {x : ℝ} (h0 : 0 ≤ x) (h1 : x ≤ 1) :
    0 ≤ round4 x ∧ round4 x ≤ 1 := by
  have hl : (0 : ℤ) ≤ round (x * 10000) := by
    have h := round_mono_of_le (show (0 : ℝ) ≤ x * 10000 by linarith)
    simpa using h
  have hu : round (x * 10000) ≤ 10000 := by
    have h := round_mono_of_le (show x * 10000 ≤ ((10000 : ℤ) : ℝ) by push_cast; linarith)
    rw [round_intCast] at h
    exact h
  constructor
  · rw [round4]
    have hc : (0:ℝ) ≤ (round (x * 10000) : ℝ) := by exact_mod_cast hl
    positivity
  · rw [round4, div_le_one (by norm_num : (0:ℝ) < 10000)]
    exact_mod_cast hu

theorem abs_round4_sub (x : ℝ) : |round4 x - x| ≤ 1 / 20000 := by
  have h := abs_sub_round (x * 10000)
  have h2 : round4 x - x = -((x * 10000 - (round (x * 10000) : ℝ)) / 10000) := by
    rw [round4]; ring
  rw [h2, abs_neg, abs_div, abs_of_pos (show (0:ℝ) < 10000 by norm_num)]
  linarith

/-! ## Elo rating system: `src/backend/services/ratings/elo.py` -/

/-- Per-team rating data: the fields of the dict created in
`EloRatingSystem.get_rating` (the timestamp is irrelevant to the claims and
is omitted; no claim mentions it). -/
structure RatingData where
  elo : ℝ
  home_elo : ℝ
  away_elo : ℝ
  matchesPlayed : ℕ
  league : Option String

/-- The `EloRatingSystem` object: constructor arguments `k_factor` and
`home_advantage`, and the `ratings` dict (team name to rating data). -/
structure EloRatingSystem where
  k_factor : ℝ
  home_advantage : ℝ
  ratings : String → Option RatingData

/-- Class constant `DEFAULT_ELO`. -/
def DEFAULT_ELO : ℝ := 1500

/-- Lookup in the class dict `LEAGUE_COEFFICIENTS` with the `"default"`
fallback 0.85, as done by `LEAGUE_COEFFICIENTS.get(league, ...)`. -/
def coefOf : String → ℝ
  | "Premier League" => 1.15
  | "La Liga" => 1.10
  | "Bundesliga" => 1.05
  | "Serie A" => 1.05
  | "Ligue 1" => 1.00
  | "Eredivisie" => 0.90
  | "Primeira Liga" => 0.90
  | "MLS" => 0.80
  | "Championship" => 0.85
  | "Bundesliga 2" => 0.75
  | _ => 0.85

/-- `LEAGUE_COEFFICIENTS.get(league, default)` where `league` is the
`Optional[str]` argument (Python `None` is never a dict key, so it takes the
default). -/
def leagueCoefficient : Option String → ℝ
  | none => 0.85
  | some l => coefOf l

/-- `EloRatingSystem.__init__` with no ratings file: the two numeric
parameters and an empty `ratings` dict. -/
def mkEloSystem (k_factor home_advantage : ℝ) : EloRatingSystem :=
  ⟨k_factor, home_advantage, fun _ => none⟩

/-- The dict created on first lookup in `get_rating` (elo.py lines 73-81). -/
def freshRating (league : Option String) : RatingData :=
  ⟨DEFAULT_ELO, DEFAULT_ELO, DEFAULT_ELO, 0, league⟩

/-- `EloRatingSystem.get_rating` (elo.py lines 62-82): returns the stored
entry, creating it with default values on first lookup.  The second
component is the system after the possible insertion into `self.ratings`. -/
def get_rating (s : EloRatingSystem) (team : String) (league : Option String) :
    RatingData × EloRatingSystem :=
  match s.ratings team with
  | some d => (d, s)
  | none =>
      let d := freshRating league
      (d, { s with ratings := fun t => if t = team then some d else s.ratings t })

/-- `EloRatingSystem.get_elo` (elo.py lines 84-86): `get_rating(team)["elo"]`
(the `league` argument of `get_rating` defaults to `None`). -/
def get_elo (s : EloRatingSystem) (team : String) : ℝ × EloRatingSystem :=
  let r := get_rating s team none
  (r.1.elo, r.2)

/-- Write one team's entry in the `ratings` dict. -/
def setRating (s : EloRatingSystem) (team : String) (d : RatingData) : EloRatingSystem :=
  { s with ratings := fun t => if t = team then some d else s.ratings t }

/-- Mutate one team's entry in place (`data["field"] = ...` on the dict held
in `self.ratings`); reads the latest state of the entry, which reproduces
Python's aliasing when the same dict object is mutated twice. -/
def updRating (s : EloRatingSystem) (team : String) (f : RatingData → RatingData) :
    EloRatingSystem :=
  match s.ratings team with
  | some d => setRating s team (f d)
  | none => s

/-- `EloRatingSystem.expected_score` (elo.py lines 95-117). -/
noncomputable def expected_score (s : EloRatingSystem) (home_elo away_elo : ℝ)
    (include_home_advantage : Bool) : ℝ × ℝ :=
  let home_elo := if include_home_advantage then home_elo + s.home_advantage else home_elo
  let elo_diff := home_elo - away_elo
  let home_expected := 1 / (1 + (10 : ℝ) ^ (-elo_diff / 400))
  (home_expected, 1 - home_expected)

/-- `EloRatingSystem.goal_difference_multiplier` (elo.py lines 119-148). -/
noncomputable def goal_difference_multiplier (goal_diff : ℤ)
    (winner_elo loser_elo : ℝ) : ℝ :=
  let abs_diff := |goal_diff|
  let multiplier : ℝ :=
    if abs_diff ≤ 1 then 1.0
    else if abs_diff = 2 then 1.5
    else if abs_diff = 3 then 1.75
    else 1.75 + ((abs_diff : ℝ) - 3) * 0.125
  if loser_elo > winner_elo then
    multiplier * (1.0 + min 0.3 ((loser_elo - winner_elo) / 500))
  else multiplier

/-- `EloRatingSystem.calculate_new_ratings` (elo.py lines 150-229): returns
`(new_home_elo, new_away_elo)` and the updated system.  The dict writes are
performed in source order through the map, reproducing Python's aliasing
when `home_team == away_team`. -/
noncomputable def calculate_new_ratings (s : EloRatingSystem)
    (home_team away_team : String) (home_goals away_goals : ℕ)
    (league : Option String) (match_importance : ℝ) :
    (ℝ × ℝ) × EloRatingSystem :=
  let r1 := get_rating s home_team league
  let home_data := r1.1
  let r2 := get_rating r1.2 away_team league
  let away_data := r2.1
  let s2 := r2.2
  let home_elo := home_data.elo
  let away_elo := away_data.elo
  let es := expected_score s2 home_elo away_elo true
  let home_expected := es.1
  let away_expected := es.2
  -- (home_actual, away_actual, gd_mult) from the three result branches
  let hav : ℝ × ℝ × ℝ :=
    if home_goals > away_goals then
      (1.0, 0.0, goal_difference_multiplier ((home_goals : ℤ) - (away_goals : ℤ)) home_elo away_elo)
    else if home_goals < away_goals then
      (0.0, 1.0, goal_difference_multiplier ((away_goals : ℤ) - (home_goals : ℤ)) away_elo home_elo)
    else (0.5, 0.5, 1.0)
  let home_actual := hav.1
  let away_actual := hav.2.1
  let gd_mult := hav.2.2
  let league_coef := leagueCoefficient league
  let k := s2.k_factor * gd_mult * match_importance * league_coef
  let home_change := k * (home_actual - home_expected)
  let away_change := k * (away_actual - away_expected)
  let new_home_elo := home_elo + home_change
  let new_away_elo := away_elo + away_change
  let s3 := updRating s2 home_team fun d =>
    { d with elo := new_home_elo, matchesPlayed := d.matchesPlayed + 1 }
  let s4 := updRating s3 away_team fun d =>
    { d with elo := new_away_elo, matchesPlayed := d.matchesPlayed + 1 }
  let s5 := updRating s4 home_team fun d =>
    { d with home_elo := 0.7 * d.home_elo + 0.3 * new_home_elo }
  let s6 := updRating s5 away_team fun d =>
    { d with away_elo := 0.7 * d.away_elo + 0.3 * new_away_elo }
  ((new_home_elo, new_away_elo), s6)

/-- The three outcome probabilities returned by `predict_outcome`. -/
structure OutcomeProbs where
  home_win : ℝ
  draw : ℝ
  away_win : ℝ

/-- `EloRatingSystem.predict_outcome` (elo.py lines 231-267). -/
noncomputable def predict_outcome (s : EloRatingSystem) (home_team away_team : String) :
    OutcomeProbs × EloRatingSystem :=
  let g1 := get_elo s home_team
  let home_elo := g1.1 + s.home_advantage
  let g2 := get_elo g1.2 away_team
  let away_elo := g2.1
  let elo_diff := home_elo - away_elo
  let home_win := 1 / (1 + (10 : ℝ) ^ (-(elo_diff - 40) / 400))
  let away_win := 1 / (1 + (10 : ℝ) ^ ((elo_diff + 40) / 400))
  let draw0 := 1 - home_win - away_win
  let draw := max 0.15 (min 0.35 draw0)
  let total := home_win + draw + away_win
  (⟨round4 (home_win / total), round4 (draw / total), round4 (away_win / total)⟩, g2.2)

/-- `EloRatingSystem.get_league_adjusted_elo` (elo.py lines 317-331). -/
noncomputable def get_league_adjusted_elo (s : EloRatingSystem)
    (team from_league to_league : String) : ℝ × EloRatingSystem :=
  let g := get_elo s team
  let raw_elo := g.1
  let from_coef := coefOf from_league
  let to_coef := coefOf to_league
  let adjustment := (from_coef / to_coef - 1) * 100
  (raw_elo + adjustment, g.2)

/-- Modelled from the spec's words for claim C3 only (the multiplicative
rescale the spec describes), to compare against the source implementation
`get_league_adjusted_elo`. -/
noncomputable def leagueAdjustedEloSpecC3 (rating : ℝ) (from_league to_league : String) : ℝ :=
  rating * (coefOf from_league / coefOf to_league)

/-! ## Claim C3: cross-league adjustment -/

/-- C3 counterexample: for a fresh team (rating 1500) moved from the Premier
League (coefficient 1.15) to Ligue 1 (coefficient 1.00), the code returns
the additive adjustment `1500 + (1.15/1.00 - 1)*100 = 1515`, not the
multiplicative rescale `1500 * 1.15/1.00 = 1725` stated by the claim. -/
theorem C3_counterexample :
    (get_league_adjusted_elo (mkEloSystem 32 65) "T" "Premier League" "Ligue 1").1 = 1515 ∧
    leagueAdjustedEloSpecC3 (get_elo (mkEloSystem 32 65) "T").1 "Premier League" "Ligue 1" = 1725 ∧
    (get_league_adjusted_elo (mkEloSystem 32 65) "T" "Premier League" "Ligue 1").1 ≠
      leagueAdjustedEloSpecC3 (get_elo (mkEloSystem 32 65) "T").1 "Premier League" "Ligue 1" := by
  refine ⟨?_, ?_, ?_⟩ <;>
    norm_num [get_league_adjusted_elo, leagueAdjustedEloSpecC3, get_elo, get_rating,
      mkEloSystem, freshRating, DEFAULT_ELO, coefOf]

/-- C3 (amended): for every team and every pair of leagues,
`get_league_adjusted_elo` returns the raw rating plus the additive
adjustment `(fromCoef / toCoef - 1) * 100`; and the coefficient of any
league outside the coefficient table is the default 0.85. -/
theorem C3_league_adjustment_additive :
    (∀ (s : EloRatingSystem) (team from_league to_league : String),
      (get_league_adjusted_elo s team from_league to_league).1
        = (get_elo s team).1 + (coefOf from_league / coefOf to_league - 1) * 100)
  ∧ (∀ l : String,
      l ∉ ["Premier League", "La Liga", "Bundesliga", "Serie A", "Ligue 1",
        "Eredivisie", "Primeira Liga", "MLS", "Championship", "Bundesliga 2"] →
      coefOf l = 0.85) := by
  constructor
  · intro s team from_league to_league
    rfl
  · intro l hl
    unfold coefOf
    split <;> simp_all

/-- Witness for `C3_league_adjustment_additive`: the additive formula at a
known from-league (the Premier League → Ligue 1 pair of the
counterexample) and the default coefficient at a league outside the
table. -/
theorem C3_league_adjustment_additive_witness :
    (get_league_adjusted_elo (mkEloSystem 32 65) "T" "Premier League" "Ligue 1").1
      = (get_elo (mkEloSystem 32 65) "T").1
        + (coefOf "Premier League" / coefOf "Ligue 1" - 1) * 100 ∧
    coefOf "Belgian Pro League" = 0.85 :=
  ⟨C3_league_adjustment_additive.1 (mkEloSystem 32 65) "T" "Premier League" "Ligue 1",
   C3_league_adjustment_additive.2 "Belgian Pro League" (by decide)⟩

/-! ## Claim C4: the two rating deltas of a single match -/

/-- C4: for every single match applied through `calculate_new_ratings` (any
league coefficient and importance, hence in particular 1.0 and 1.0), the
home team's rating change is the exact negative of the away team's rating
change: the goal-difference multiplier is computed once, from the winner's
and loser's ratings, and the same effective K-factor multiplies
`actual − expected` on both sides, whose sum is zero. -/
theorem C4_delta_exact_negation (s : EloRatingSystem) (home_team away_team : String)
    (home_goals away_goals : ℕ) (league : Option String) (match_importance : ℝ) :
    (calculate_new_ratings s home_team away_team home_goals away_goals league
        match_importance).1.1
      - (get_rating s home_team league).1.elo
    = -((calculate_new_ratings s home_team away_team home_goals away_goals league
        match_importance).1.2
      - (get_rating (get_rating s home_team league).2 away_team league).1.elo) := by
  unfold calculate_new_ratings expected_score
  split_ifs <;> (dsimp only; ring)

/-! ## Bounds on the powers of ten used by `predict_outcome` and
`expected_score` at the concrete inputs of claims C1 and C2 -/

theorem one_lt_ten_rpow_tenth : (1:ℝ) < (10:ℝ) ^ ((1:ℝ)/10) := by
  rw [Real.one_lt_rpow_iff_of_pos (by norm_num)]
  left; constructor <;> norm_num

theorem ten_rpow_tenth_lt : (10:ℝ) ^ ((1:ℝ)/10) < 23/17 := by
  have hx : ((10:ℝ) ^ ((1:ℝ)/10)) ^ (10:ℕ) = 10 := by
    rw [← Real.rpow_natCast ((10:ℝ) ^ ((1:ℝ)/10)) 10, ← Real.rpow_mul (by norm_num)]
    norm_num
  by_contra hc
  push_neg at hc
  have h2 : ((23:ℝ)/17) ^ (10:ℕ) ≤ ((10:ℝ) ^ ((1:ℝ)/10)) ^ (10:ℕ) :=
    pow_le_pow_left₀ (by norm_num) hc 10
  rw [hx] at h2
  norm_num at h2

theorem ten_rpow_neg_home_adv_ge : 1/10 ≤ (10:ℝ) ^ (-(13/80) : ℝ) := by
  have h := (Real.rpow_le_rpow_left_iff (show (1:ℝ) < 10 by norm_num)).mpr
    (show (-1 : ℝ) ≤ -(13/80 : ℝ) by norm_num)
  calc (1:ℝ)/10 = (10:ℝ) ^ (-1 : ℝ) := by
        rw [show ((-1:ℝ) = ((-1 : ℤ) : ℝ)) by norm_num, Real.rpow_intCast]
        norm_num
    _ ≤ _ := h

/-! ## Claim C1: `predict_outcome` for two equally rated teams, no home
advantage -/

/-- Shared evaluation facts for claims about
`predict_outcome (mkEloSystem 32 0) "A" "B"`: both teams are fresh
(rating 1500), the system has zero home advantage; then the returned
home-win and away-win probabilities are equal and the returned draw
probability is strictly below both (the raw draw mass 1 − 2·homeWin falls
below the 0.15 clamp floor, while each win mass is ≈ 0.43 after
normalisation). -/
theorem predict_outcome_equal_ratings_facts :
    (predict_outcome (mkEloSystem 32 0) "A" "B").1.home_win
      = (predict_outcome (mkEloSystem 32 0) "A" "B").1.away_win
  ∧ (predict_outcome (mkEloSystem 32 0) "A" "B").1.draw
      < (predict_outcome (mkEloSystem 32 0) "A" "B").1.home_win := by
  have h1 : (1:ℝ) < (10:ℝ) ^ ((1:ℝ)/10) := one_lt_ten_rpow_tenth
  have h2 : (10:ℝ) ^ ((1:ℝ)/10) < 23/17 := ten_rpow_tenth_lt
  constructor
  · unfold predict_outcome get_elo get_rating mkEloSystem freshRating DEFAULT_ELO
    norm_num +decide
  · unfold predict_outcome get_elo get_rating mkEloSystem freshRating DEFAULT_ELO
    norm_num +decide
    set t : ℝ := (10:ℝ) ^ ((1:ℝ)/10) with ht
    have hinv1 : 17/40 < (1+t)⁻¹ := by
      have hpos : (0:ℝ) < 1 + t := by linarith
      have hlt : 1 + t < 40/17 := by linarith
      have h3 := inv_lt_inv_of_lt hpos hlt
      norm_num at h3
      linarith
    have hinv2 : (1+t)⁻¹ < 1/2 := by
      have hpos : (0:ℝ) < 2 := by norm_num
      have hlt : (2:ℝ) < 1 + t := by linarith
      have h3 := inv_lt_inv_of_lt hpos hlt
      norm_num at h3
      linarith
    have hmin : (7:ℝ)/20 ⊓ (1 - (1+t)⁻¹ - (1+t)⁻¹) = 1 - (1+t)⁻¹ - (1+t)⁻¹ :=
      min_eq_right (by linarith)
    have hmax : (3:ℝ)/20 ⊔ (1 - (1+t)⁻¹ - (1+t)⁻¹) = 3/20 :=
      max_eq_left (by linarith)
    rw [hmin, hmax]
    set T : ℝ := (1+t)⁻¹ + 3/20 + (1+t)⁻¹ with hT
    have hTpos : 0 < T := by rw [hT]; linarith
    have hTle : T ≤ 23/20 := by rw [hT]; linarith
    have hdiv : 11/46 ≤ ((1+t)⁻¹ - 3/20)/T := by
      rw [le_div_iff hTpos]
      nlinarith
    have hsplit : (1+t)⁻¹/T - (3/20)/T = ((1+t)⁻¹ - 3/20)/T := by ring
    have habs1 := abs_le.mp (abs_round4_sub ((3/20) / T))
    have habs2 := abs_le.mp (abs_round4_sub ((1+t)⁻¹ / T))
    linarith [habs1.1, habs1.2, habs2.1, habs2.2]

/-- C1 counterexample: for two fresh teams (both rated 1500) in a system
with no home advantage, the draw probability returned by `predict_outcome`
is NOT the single highest of the three probabilities (it is in fact
strictly below the home-win probability), refuting the claim at this
concrete input. -/
theorem C1_counterexample_draw_not_highest :
    ¬ ((predict_outcome (mkEloSystem 32 0) "A" "B").1.home_win
        < (predict_outcome (mkEloSystem 32 0) "A" "B").1.draw
      ∧ (predict_outcome (mkEloSystem 32 0) "A" "B").1.away_win
        < (predict_outcome (mkEloSystem 32 0) "A" "B").1.draw) := by
  intro h
  have hf := predict_outcome_equal_ratings_facts
  linarith [h.1, hf.2]

/-- C1 (amended): for two teams both rated 1500 and no home advantage,
`predict_outcome` returns equal home-win and away-win probabilities, and
the draw probability is the single LOWEST of the three (the raw draw mass
falls below the 0.15 clamp floor, so the clamped and renormalised draw
probability ≈ 0.145 sits far below the two win probabilities ≈ 0.43). -/
theorem C1_amended_draw_is_lowest :
    (predict_outcome (mkEloSystem 32 0) "A" "B").1.home_win
      = (predict_outcome (mkEloSystem 32 0) "A" "B").1.away_win
  ∧ (predict_outcome (mkEloSystem 32 0) "A" "B").1.draw
      < (predict_outcome (mkEloSystem 32 0) "A" "B").1.home_win
  ∧ (predict_outcome (mkEloSystem 32 0) "A" "B").1.draw
      < (predict_outcome (mkEloSystem 32 0) "A" "B").1.away_win := by
  have hf := predict_outcome_equal_ratings_facts
  exact ⟨hf.1, hf.2, hf.1 ▸ hf.2⟩

/-! ## Claim C2: the [1000, 2500] rating clamp -/

/-- Shared helper: one application of `calculate_new_ratings` (a 1-0 home
win between fresh 1500-rated teams with match importance 1000) leaves a
stored home rating above 2500 — `calculate_new_ratings` performs no
clamping at all. -/
theorem calculate_new_ratings_exceeds_2500 :
    2500 < (get_elo (calculate_new_ratings (mkEloSystem 32 65) "A" "B" 1 0 none 1000).2 "A").1 := by
  unfold calculate_new_ratings expected_score goal_difference_multiplier get_elo get_rating
    updRating setRating mkEloSystem freshRating DEFAULT_ELO leagueCoefficient
  norm_num +decide
  have hb : 1/10 ≤ (10:ℝ) ^ (-(13/80) : ℝ) := ten_rpow_neg_home_adv_ge
  have hpos : (0:ℝ) < 1 + (10:ℝ) ^ (-(13/80) : ℝ) := by
    have := Real.rpow_pos_of_pos (show (0:ℝ) < 10 by norm_num) (-(13/80) : ℝ)
    linarith
  have hinv : (1 + (10:ℝ) ^ (-(13/80) : ℝ))⁻¹ ≤ 10/11 := by
    have h3 : (1 + (10:ℝ) ^ (-(13/80) : ℝ))⁻¹ ≤ ((11:ℝ)/10)⁻¹ :=
      inv_le_inv_of_le (by norm_num) (by linarith)
    have h4 : ((11:ℝ)/10)⁻¹ = 10/11 := by norm_num
    linarith
  linarith

/-- C2 counterexample: the stored rating after a single
`calculate_new_ratings` application can exceed 2500 (concretely, a 1-0 home
win between fresh 1500-rated teams with match importance 1000 leaves the
home team's stored rating ≥ 3972), so mutating operations do not keep the
stored rating inside [1000, 2500]. -/
theorem C2_counterexample_no_clamp :
    ¬ ((get_elo (calculate_new_ratings (mkEloSystem 32 65) "A" "B" 1 0 none 1000).2 "A").1 ≤ 2500) := by
  have h := calculate_new_ratings_exceeds_2500
  linarith

/-- C2 (amended): the entry created on first lookup has rating 1500, which
lies in [1000, 2500]; but `calculate_new_ratings` stores the raw updated
values without any clamping, and a single application can leave the stored
rating outside [1000, 2500]. -/
theorem C2_amended_fresh_in_range_but_unclamped :
    (∀ (s : EloRatingSystem) (team : String) (league : Option String),
        s.ratings team = none →
        (get_rating s team league).1.elo = 1500
      ∧ 1000 ≤ (get_rating s team league).1.elo
      ∧ (get_rating s team league).1.elo ≤ 2500)
  ∧ ∃ (s : EloRatingSystem) (home away : String) (hg ag : ℕ)
      (league : Option String) (imp : ℝ),
      2500 < (get_elo (calculate_new_ratings s home away hg ag league imp).2 home).1 := by
  constructor
  · intro s team league hnone
    unfold get_rating
    rw [hnone]
    norm_num [freshRating, DEFAULT_ELO]
  · exact ⟨mkEloSystem 32 65, "A", "B", 1, 0, none, 1000,
      calculate_new_ratings_exceeds_2500⟩

/-- Witness for `C2_amended_fresh_in_range_but_unclamped`: the fresh-lookup
part applied to the empty system at a concrete team. -/
theorem C2_amended_witness :
    (get_rating (mkEloSystem 32 65) "X" none).1.elo = 1500
  ∧ 1000 ≤ (get_rating (mkEloSystem 32 65) "X" none).1.elo
  ∧ (get_rating (mkEloSystem 32 65) "X" none).1.elo ≤ 2500 :=
  C2_amended_fresh_in_range_but_unclamped.1 (mkEloSystem 32 65) "X" none rfl

/-! ## Poisson scoreline model:
`src/backend/services/prediction/probabilistic.py` -/

/-- Python `round(x, 2)`, used for the expected-goals fields of
`predict_match`. -/
noncomputable def round2 (x : ℝ) : ℝ := (round (x * 100) : ℤ) / 100

/-- `GoalDistribution` dataclass (probabilistic.py lines 12-22): expected
goals and the probability vector over goal counts `0..max_goals`. -/
structure GoalDistribution where
  expected_goals : ℝ
  probabilities : List ℝ

/-- `GoalDistribution.prob` (lines 18-22): returns 0.0 when the index is
negative or at least the vector length, otherwise the vector entry. -/
def GoalDistribution.prob (g : GoalDistribution) (goals : ℤ) : ℝ :=
  if goals < 0 ∨ (g.probabilities.length : ℤ) ≤ goals then 0.0
  else g.probabilities.getD goals.toNat 0

/-- `ScoreMatrix` dataclass (lines 25-37): the
`(max_goals+1) × (max_goals+1)` numpy matrix is modelled as a function of
the two indices. -/
structure ScoreMatrix where
  matrix : ℕ → ℕ → ℝ
  home_expected : ℝ
  away_expected : ℝ
  max_goals : ℕ

/-- `ScoreMatrix.get_prob` (lines 33-37): returns 0.0 when either index is
negative or exceeds `max_goals`, otherwise the matrix cell. -/
def ScoreMatrix.get_prob (m : ScoreMatrix) (home away : ℤ) : ℝ :=
  if home < 0 ∨ away < 0 ∨ (m.max_goals : ℤ) < home ∨ (m.max_goals : ℤ) < away then 0.0
  else m.matrix home.toNat away.toNat

/-- `ScoreMatrix.home_win_prob` (lines 39-45): sum of the cells with
`home > away`. -/
noncomputable def ScoreMatrix.home_win_prob (m : ScoreMatrix) : ℝ :=
  ((List.range (m.max_goals + 1)).map fun h =>
    ((List.range h).map fun a => m.matrix h a).sum).sum

/-- `ScoreMatrix.draw_prob` (lines 47-49): sum of the diagonal. -/
noncomputable def ScoreMatrix.draw_prob (m : ScoreMatrix) : ℝ :=
  ((List.range (m.max_goals + 1)).map fun i => m.matrix i i).sum

/-- `ScoreMatrix.away_win_prob` (lines 51-57): sum of the cells with
`away > home`. -/
noncomputable def ScoreMatrix.away_win_prob (m : ScoreMatrix) : ℝ :=
  ((List.range (m.max_goals + 1)).map fun a =>
    ((List.range a).map fun h => m.matrix h a).sum).sum

/-- `ScoreMatrix.over_goals_prob` (lines 59-67): sum of the cells whose
total exceeds `int(total)` (Python `int()` truncates toward zero). -/
noncomputable def ScoreMatrix.over_goals_prob (m : ScoreMatrix) (total : ℝ) : ℝ :=
  let threshold : ℤ := if 0 ≤ total then ⌊total⌋ else -⌊-total⌋
  ((List.range (m.max_goals + 1)).map fun h =>
    ((List.range (m.max_goals + 1)).map fun a =>
      if threshold < ((h + a : ℕ) : ℤ) then m.matrix h a else 0).sum).sum

/-- `ScoreMatrix.btts_prob` (lines 69-75): sum of the cells with both
indices at least 1. -/
noncomputable def ScoreMatrix.btts_prob (m : ScoreMatrix) : ℝ :=
  ((List.range' 1 m.max_goals).map fun h =>
    ((List.range' 1 m.max_goals).map fun a => m.matrix h a).sum).sum

/-- The flat `scores` list built in `most_likely_scores` (lines 79-82):
all cells `(h, a, matrix[h, a])` in grid-traversal order (increasing home
goals, inner loop increasing away goals). -/
def allScores (m : ScoreMatrix) : List (ℕ × ℕ × ℝ) :=
  (List.range (m.max_goals + 1)).flatMap fun h =>
    (List.range (m.max_goals + 1)).map fun a => (h, a, m.matrix h a)

/-- The descending-by-probability ordering used by
`scores.sort(key=lambda x: x[2], reverse=True)`. -/
def probDescOrder (x y : ℕ × ℕ × ℝ) : Prop := y.2.2 ≤ x.2.2

noncomputable instance : DecidableRel probDescOrder := fun x y =>
  Real.decidableLE y.2.2 x.2.2

/-- `ScoreMatrix.most_likely_scores` (lines 77-85): Python `list.sort` is a
stable sort, modelled by Mathlib's (stable) insertion sort; with
`reverse=True` elements that compare equal keep their original order, which
insertion sort with the reflexive descending order reproduces. -/
noncomputable def ScoreMatrix.most_likely_scores (m : ScoreMatrix) (n : ℕ) :
    List (ℕ × ℕ × ℝ) :=
  (List.insertionSort probDescOrder (allScores m)).take n

/-- `PoissonModel.__init__` (lines 96-97). -/
structure PoissonModel where
  max_goals : ℕ

/-- `scipy.stats.poisson.pmf(k, mu)`: the Poisson probability mass
function. -/
noncomputable def poisson_pmf (mu : ℝ) (k : ℕ) : ℝ :=
  Real.exp (-mu) * mu ^ k / (Nat.factorial k)

/-- `PoissonModel.calculate_expected_goals` (lines 99-119); `self` is not
used by the method. -/
noncomputable def calculate_expected_goals
    (attack_strength defense_weakness league_avg_goals home_advantage : ℝ) : ℝ :=
  max 0.3 (min 5.0 (attack_strength * defense_weakness * league_avg_goals + home_advantage))

/-- `PoissonModel.goal_distribution` (lines 121-134): truncated Poisson
probabilities, renormalised to sum to 1. -/
noncomputable def PoissonModel.goal_distribution (m : PoissonModel)
    (expected_goals : ℝ) : GoalDistribution :=
  let probs := (List.range (m.max_goals + 1)).map fun k => poisson_pmf expected_goals k
  ⟨expected_goals, probs.map (· / probs.sum)⟩

/-- `PoissonModel.score_matrix` (lines 136-160): outer product of the two
goal distributions. -/
noncomputable def PoissonModel.score_matrix (m : PoissonModel)
    (home_xG away_xG : ℝ) : ScoreMatrix :=
  let home_dist := m.goal_distribution home_xG
  let away_dist := m.goal_distribution away_xG
  ⟨fun h a => home_dist.probabilities.getD h 0 * away_dist.probabilities.getD a 0,
    home_xG, away_xG, m.max_goals⟩

/-- The dict returned by `PoissonModel.predict_match` (lines 220-240). -/
structure MatchPrediction where
  outcome : OutcomeProbs
  home_xG : ℝ
  away_xG : ℝ
  total_xG : ℝ
  over_1_5 : ℝ
  over_2_5 : ℝ
  over_3_5 : ℝ
  btts : ℝ
  scorelines : List (ℕ × ℕ × ℝ)
  matrix : ScoreMatrix

/-- `PoissonModel.predict_match` (lines 162-240). -/
noncomputable def PoissonModel.predict_match (m : PoissonModel)
    (home_attack home_defense away_attack away_defense
      league_avg_goals home_advantage : ℝ) : MatchPrediction :=
  let home_xG := calculate_expected_goals home_attack
    (if away_defense > 0 then 1 / away_defense else 1.0) league_avg_goals home_advantage
  let away_xG := calculate_expected_goals away_attack
    (if home_defense > 0 then 1 / home_defense else 1.0) league_avg_goals 0.0
  let matrix := m.score_matrix home_xG away_xG
  let home_win := matrix.home_win_prob
  let draw := matrix.draw_prob
  let away_win := matrix.away_win_prob
  let total := home_win + draw + away_win
  let home_win := home_win / total
  let draw := draw / total
  let away_win := away_win / total
  let likely_scores := matrix.most_likely_scores 5
  { outcome := ⟨round4 home_win, round4 draw, round4 away_win⟩
    home_xG := round2 home_xG
    away_xG := round2 away_xG
    total_xG := round2 (home_xG + away_xG)
    over_1_5 := round4 (matrix.over_goals_prob 1.5)
    over_2_5 := round4 (matrix.over_goals_prob 2.5)
    over_3_5 := round4 (matrix.over_goals_prob 3.5)
    btts := round4 matrix.btts_prob
    scorelines := likely_scores.map fun s => (s.1, s.2.1, round4 s.2.2)
    matrix := matrix }

instance : IsTotal (ℕ × ℕ × ℝ) probDescOrder := ⟨fun x y => le_total y.2.2 x.2.2⟩

instance : IsTrans (ℕ × ℕ × ℝ) probDescOrder := ⟨fun _ _ _ h1 h2 => le_trans h2 h1⟩

/-! ## Claim C9: the scoreline accessors are total -/

/-- C9: `GoalDistribution.prob` returns 0.0 for any index that is negative
or at least the vector length, and `ScoreMatrix.get_prob` returns 0.0 for
any index that is negative or exceeds `max_goals`; neither fails with an
out-of-bounds error. -/
theorem C9_accessors_total_out_of_bounds_zero :
    (∀ (g : GoalDistribution) (goals : ℤ),
        goals < 0 ∨ (g.probabilities.length : ℤ) ≤ goals → g.prob goals = 0)
  ∧ (∀ (m : ScoreMatrix) (home away : ℤ),
        home < 0 ∨ away < 0 ∨ (m.max_goals : ℤ) < home ∨ (m.max_goals : ℤ) < away →
        m.get_prob home away = 0) := by
  constructor
  · intro g goals h
    unfold GoalDistribution.prob
    rw [if_pos h]
    norm_num
  · intro m home away h
    unfold ScoreMatrix.get_prob
    rw [if_pos h]
    norm_num

/-- Witness for `C9_accessors_total_out_of_bounds_zero` at concrete
out-of-bounds inputs. -/
theorem C9_accessors_total_witness :
    GoalDistribution.prob ⟨1, [1]⟩ (-1) = 0
  ∧ ScoreMatrix.get_prob ⟨fun _ _ => 1, 1, 1, 10⟩ 11 0 = 0 :=
  ⟨C9_accessors_total_out_of_bounds_zero.1 ⟨1, [1]⟩ (-1) (Or.inl (by norm_num)),
   C9_accessors_total_out_of_bounds_zero.2 ⟨fun _ _ => 1, 1, 1, 10⟩ 11 0
     (by norm_num)⟩

/-! ## Claim C6: ordering of `most_likely_scores` -/

/-- The ordering requirement stated by claim C6: probability descending,
and whenever two scorelines have equal probability the one with the lower
total goals comes first. -/
def C6ClaimOrdered (L : List (ℕ × ℕ × ℝ)) : Prop :=
  L.Pairwise fun x y => y.2.2 ≤ x.2.2 ∧ (x.2.2 = y.2.2 → x.1 + x.2.1 ≤ y.1 + y.2.1)

/-- A concrete score matrix with tied cells: the outer product of the
weight vector (1/5, 2/5, 2/5) with itself (a genuine probability matrix,
all cells nonnegative and summing to 1). -/
noncomputable def mC6w : ℕ → ℝ := fun k => if k = 0 then 1/5 else if k ≤ 2 then 2/5 else 0

/-- The `ScoreMatrix` over `mC6w`, `max_goals = 2`. -/
noncomputable def mC6 : ScoreMatrix := ⟨fun h a => mC6w h * mC6w a, 2, 2, 2⟩

/-- Evaluation of the cell list of `mC6` in grid-traversal order. -/
theorem allScores_mC6 :
    allScores mC6
    = [(0,0,1/25),(0,1,2/25),(0,2,2/25),(1,0,2/25),(1,1,4/25),(1,2,4/25),
       (2,0,2/25),(2,1,4/25),(2,2,4/25)] := by
  norm_num [allScores, mC6, mC6w, List.range_succ]

/-- Evaluation of `most_likely_scores` on `mC6`: equal-probability cells
keep their traversal order, so `(0,2)` (total 2) precedes `(1,0)`
(total 1). -/
theorem most_likely_scores_mC6 :
    mC6.most_likely_scores 9
    = [(1,1,4/25),(1,2,4/25),(2,1,4/25),(2,2,4/25),(0,1,2/25),(0,2,2/25),
       (1,0,2/25),(2,0,2/25),(0,0,1/25)] := by
  rw [ScoreMatrix.most_likely_scores, allScores_mC6]
  norm_num [List.insertionSort, List.orderedInsert, probDescOrder]

/-- C6 counterexample: on the concrete matrix `mC6`, `most_likely_scores`
lists the equal-probability scorelines `(0,2)` (total 2 goals) before
`(1,0)` (total 1 goal), so ties are NOT broken by lower total goals. -/
theorem C6_counterexample_tie_not_by_total :
    ¬ C6ClaimOrdered (mC6.most_likely_scores 9) := by
  rw [most_likely_scores_mC6]
  intro h
  simp only [C6ClaimOrdered, List.pairwise_cons] at h
  have h1 := h.2.2.2.2.2.1 (1, 0, 2/25) (by norm_num)
  norm_num at h1

/-- C6 (amended): `most_likely_scores n` is sorted by probability in
descending order, and whenever two cells have equal probability they stay
in the order in which the score grid is traversed (increasing home goals,
then increasing away goals) — the stable-sort order, not lower total goals
first. -/
theorem C6_amended_sorted_desc_stable (m : ScoreMatrix) (n : ℕ) (x y : ℕ × ℕ × ℝ)
    (hxy : x.2.2 = y.2.2) (hsub : [x, y].Sublist (allScores m)) :
    (m.most_likely_scores n).Pairwise probDescOrder
  ∧ [x, y].Sublist (List.insertionSort probDescOrder (allScores m)) := by
  constructor
  · exact List.Pairwise.sublist (List.take_sublist n _)
      (List.sorted_insertionSort probDescOrder (allScores m))
  · exact List.pair_sublist_insertionSort
      (show probDescOrder x y from le_of_eq hxy.symm) hsub

/-- Witness for `C6_amended_sorted_desc_stable`: the tied cells `(0,2)` and
`(1,0)` of the concrete matrix `mC6`. -/
theorem C6_amended_sorted_desc_stable_witness :
    (mC6.most_likely_scores 9).Pairwise probDescOrder
  ∧ [((0:ℕ),(2:ℕ),(2:ℝ)/25), (1,0,2/25)].Sublist
      (List.insertionSort probDescOrder (allScores mC6)) :=
  C6_amended_sorted_desc_stable mC6 9 (0,2,2/25) (1,0,2/25) rfl
    (by rw [allScores_mC6]
        exact List.IsInfix.sublist
          ⟨[(0,0,1/25),(0,1,2/25)],
           [(1,1,4/25),(1,2,4/25),(2,0,2/25),(2,1,4/25),(2,2,4/25)], rfl⟩)

/-! ## Claim C5: validity of the outcome probability triple -/

/-- Reading an entry of a list of nonnegative reals with default 0 is
nonnegative. -/
theorem getD_nonneg {l : List ℝ} (h : ∀ x ∈ l, 0 ≤ x) (i : ℕ) : 0 ≤ l.getD i 0 := by
  rcases hlt : l[i]? with _ | x
  · simp [List.getD, hlt]
  · have hx : x ∈ l := List.getElem?_mem hlt
    simp [List.getD, hlt]
    exact h x hx

/-- Reading an in-bounds entry of a list of positive reals is positive. -/
theorem getD_pos {l : List ℝ} (h : ∀ x ∈ l, 0 < x) {i : ℕ} (hi : i < l.length) :
    0 < l.getD i 0 := by
  have hlt : l[i]? = some l[i] := List.getElem?_eq_getElem hi
  simp [List.getD, hlt]
  exact h _ (List.getElem_mem hi)

/-- The `exp(-mu)` factor of the Poisson pmf cancels when the truncated
distribution is renormalised: the stored probabilities equal the weights
`mu^k / k!` divided by their truncated sum. -/
theorem goal_distribution_probs_eq (m : PoissonModel) (xg : ℝ) :
    (m.goal_distribution xg).probabilities
    = (List.range (m.max_goals + 1)).map fun k =>
        (xg ^ k / (Nat.factorial k)) /
          (((List.range (m.max_goals + 1)).map fun j => xg ^ j / (Nat.factorial j)).sum) := by
  unfold PoissonModel.goal_distribution
  have hfac : ∀ k : ℕ, poisson_pmf xg k = Real.exp (-xg) * (xg ^ k / (Nat.factorial k)) := by
    intro k
    unfold poisson_pmf
    ring
  have hsum : ((List.range (m.max_goals + 1)).map fun k => poisson_pmf xg k).sum
      = Real.exp (-xg)
        * ((List.range (m.max_goals + 1)).map fun j => xg ^ j / (Nat.factorial j)).sum := by
    rw [← List.sum_map_mul_left]
    congr 1
    exact List.map_congr_left fun k _ => hfac k
  simp only [List.map_map]
  rw [hsum]
  apply List.map_congr_left
  intro k _
  simp only [Function.comp_apply]
  rw [hfac k, mul_div_mul_left]
  exact Real.exp_ne_zero _

/-- Every stored probability of a goal distribution with positive expected
goals is positive (pmf values are positive, and so is their sum). -/
theorem goal_distribution_entry_pos (m : PoissonModel) {xg : ℝ} (hx : 0 < xg) :
    ∀ p ∈ (m.goal_distribution xg).probabilities, 0 < p := by
  intro p hp
  unfold PoissonModel.goal_distribution at hp
  simp only [List.map_map, List.mem_map, List.mem_range] at hp
  obtain ⟨k, _, hk⟩ := hp
  have hpmf : ∀ j : ℕ, 0 < poisson_pmf xg j := by
    intro j
    unfold poisson_pmf
    have h1 : (0:ℝ) < Real.exp (-xg) := Real.exp_pos _
    have h2 : (0:ℝ) < xg ^ j := pow_pos hx j
    have h3 : (0:ℝ) < (Nat.factorial j : ℝ) := by
      exact_mod_cast Nat.factorial_pos j
    positivity
  have hsumpos :
      0 < ((List.range (m.max_goals + 1)).map fun k => poisson_pmf xg k).sum := by
    apply List.sum_pos
    · intro x hxm
      simp only [List.mem_map, List.mem_range] at hxm
      obtain ⟨j, _, hj⟩ := hxm
      rw [← hj]
      exact hpmf j
    · simp
  rw [← hk]
  simp only [Function.comp_apply]
  exact div_pos (hpmf k) hsumpos

/-- Length of the stored probability vector. -/
theorem goal_distribution_length (m : PoissonModel) (xg : ℝ) :
    (m.goal_distribution xg).probabilities.length = m.max_goals + 1 := by
  unfold PoissonModel.goal_distribution
  simp

/-- All cells of a score matrix built from positive expected goals are
nonnegative. -/
theorem score_matrix_cell_nonneg (m : PoissonModel) {xg1 xg2 : ℝ}
    (h1 : 0 < xg1) (h2 : 0 < xg2) (h a : ℕ) :
    0 ≤ (m.score_matrix xg1 xg2).matrix h a := by
  unfold PoissonModel.score_matrix
  dsimp only
  have hH := getD_nonneg (fun x hx => le_of_lt (goal_distribution_entry_pos m h1 x hx)) h
  have hA := getD_nonneg (fun x hx => le_of_lt (goal_distribution_entry_pos m h2 x hx)) a
  exact mul_nonneg hH hA

/-- The draw probability of a score matrix built from positive expected
goals is strictly positive (every diagonal cell is). -/
theorem score_matrix_draw_pos (m : PoissonModel) {xg1 xg2 : ℝ}
    (h1 : 0 < xg1) (h2 : 0 < xg2) :
    0 < (m.score_matrix xg1 xg2).draw_prob := by
  unfold ScoreMatrix.draw_prob
  apply List.sum_pos
  · intro x hx
    simp only [List.mem_map, List.mem_range] at hx
    obtain ⟨i, hi, hcell⟩ := hx
    rw [← hcell]
    show 0 < (m.score_matrix xg1 xg2).matrix i i
    unfold PoissonModel.score_matrix
    dsimp only
    have hlen1 : i < (m.goal_distribution xg1).probabilities.length := by
      rw [goal_distribution_length]
      exact lt_of_lt_of_le hi (by unfold PoissonModel.score_matrix; dsimp only; omega)
    have hlen2 : i < (m.goal_distribution xg2).probabilities.length := by
      rw [goal_distribution_length]
      exact lt_of_lt_of_le hi (by unfold PoissonModel.score_matrix; dsimp only; omega)
    exact mul_pos (getD_pos (goal_distribution_entry_pos m h1) hlen1)
      (getD_pos (goal_distribution_entry_pos m h2) hlen2)
  · simp

/-- The home-win probability of a score matrix built from positive expected
goals is nonnegative. -/
theorem score_matrix_home_win_nonneg (m : PoissonModel) {xg1 xg2 : ℝ}
    (h1 : 0 < xg1) (h2 : 0 < xg2) :
    0 ≤ (m.score_matrix xg1 xg2).home_win_prob := by
  unfold ScoreMatrix.home_win_prob
  apply List.sum_nonneg
  intro x hx
  simp only [List.mem_map, List.mem_range] at hx
  obtain ⟨h, _, hrow⟩ := hx
  rw [← hrow]
  apply List.sum_nonneg
  intro y hy
  simp only [List.mem_map, List.mem_range] at hy
  obtain ⟨a, _, hcell⟩ := hy
  rw [← hcell]
  exact score_matrix_cell_nonneg m h1 h2 h a

/-- The away-win probability of a score matrix built from positive expected
goals is nonnegative. -/
theorem score_matrix_away_win_nonneg (m : PoissonModel) {xg1 xg2 : ℝ}
    (h1 : 0 < xg1) (h2 : 0 < xg2) :
    0 ≤ (m.score_matrix xg1 xg2).away_win_prob := by
  unfold ScoreMatrix.away_win_prob
  apply List.sum_nonneg
  intro x hx
  simp only [List.mem_map, List.mem_range] at hx
  obtain ⟨a, _, hcol⟩ := hx
  rw [← hcol]
  apply List.sum_nonneg
  intro y hy
  simp only [List.mem_map, List.mem_range] at hy
  obtain ⟨h, _, hcell⟩ := hy
  rw [← hcell]
  exact score_matrix_cell_nonneg m h1 h2 h a

/-- The clamp in `calculate_expected_goals` keeps the expected goals
positive (at least 0.3). -/
theorem calculate_expected_goals_pos (a b c d : ℝ) :
    0 < calculate_expected_goals a b c d := by
  unfold calculate_expected_goals
  have := le_max_left (0.3 : ℝ) (min 5.0 (a * b * c + d))
  linarith

/-- The matrix carried by a `predict_match` result is the score matrix of
the two clamped expected-goal values. -/
theorem predict_match_matrix_spec (m : PoissonModel)
    (ha hd aa ad avg hadv : ℝ) :
    (m.predict_match ha hd aa ad avg hadv).matrix
      = m.score_matrix
          (calculate_expected_goals ha (if ad > 0 then 1 / ad else 1.0) avg hadv)
          (calculate_expected_goals aa (if hd > 0 then 1 / hd else 1.0) avg 0.0) := rfl

/-- The outcome triple of a `predict_match` result is the rounded,
normalised triple of the carried matrix's win/draw/win masses. -/
theorem predict_match_outcome_spec (m : PoissonModel)
    (ha hd aa ad avg hadv : ℝ) :
    (m.predict_match ha hd aa ad avg hadv).outcome
      = ⟨round4 ((m.predict_match ha hd aa ad avg hadv).matrix.home_win_prob
          / ((m.predict_match ha hd aa ad avg hadv).matrix.home_win_prob
            + (m.predict_match ha hd aa ad avg hadv).matrix.draw_prob
            + (m.predict_match ha hd aa ad avg hadv).matrix.away_win_prob)),
         round4 ((m.predict_match ha hd aa ad avg hadv).matrix.draw_prob
          / ((m.predict_match ha hd aa ad avg hadv).matrix.home_win_prob
            + (m.predict_match ha hd aa ad avg hadv).matrix.draw_prob
            + (m.predict_match ha hd aa ad avg hadv).matrix.away_win_prob)),
         round4 ((m.predict_match ha hd aa ad avg hadv).matrix.away_win_prob
          / ((m.predict_match ha hd aa ad avg hadv).matrix.home_win_prob
            + (m.predict_match ha hd aa ad avg hadv).matrix.draw_prob
            + (m.predict_match ha hd aa ad avg hadv).matrix.away_win_prob))⟩ := rfl

/-- Shared helper: rounding the three components of a normalised
nonnegative triple keeps each in [0,1] and keeps the sum within 3/20000 of
1. -/
theorem round4_triple_props (a b c : ℝ) (ha : 0 ≤ a) (hb : 0 ≤ b) (hc : 0 ≤ c)
    (hT : 0 < a + b + c) :
    (0 ≤ round4 (a/(a+b+c)) ∧ round4 (a/(a+b+c)) ≤ 1)
  ∧ (0 ≤ round4 (b/(a+b+c)) ∧ round4 (b/(a+b+c)) ≤ 1)
  ∧ (0 ≤ round4 (c/(a+b+c)) ∧ round4 (c/(a+b+c)) ≤ 1)
  ∧ |round4 (a/(a+b+c)) + round4 (b/(a+b+c)) + round4 (c/(a+b+c)) - 1| ≤ 3/20000 := by
  have hqa : 0 ≤ a/(a+b+c) := div_nonneg ha (le_of_lt hT)
  have hqb : 0 ≤ b/(a+b+c) := div_nonneg hb (le_of_lt hT)
  have hqc : 0 ≤ c/(a+b+c) := div_nonneg hc (le_of_lt hT)
  have hqa1 : a/(a+b+c) ≤ 1 := by rw [div_le_one hT]; linarith
  have hqb1 : b/(a+b+c) ≤ 1 := by rw [div_le_one hT]; linarith
  have hqc1 : c/(a+b+c) ≤ 1 := by rw [div_le_one hT]; linarith
  have hsum : a/(a+b+c) + b/(a+b+c) + c/(a+b+c) = 1 := by
    field_simp
  refine ⟨round4_mem_Icc hqa hqa1, round4_mem_Icc hqb hqb1, round4_mem_Icc hqc hqc1, ?_⟩
  have h1 := abs_le.mp (abs_round4_sub (a/(a+b+c)))
  have h2 := abs_le.mp (abs_round4_sub (b/(a+b+c)))
  have h3 := abs_le.mp (abs_round4_sub (c/(a+b+c)))
  rw [abs_le]
  constructor <;> linarith [h1.1, h1.2, h2.1, h2.2, h3.1, h3.2]

/-- C5 (amended): for every `predict_match` prediction the three outcome
masses of the carried matrix are normalised to sum to exactly 1 before
rounding, and the three returned (rounded) probabilities each lie in
[0,1] with sum within 3/20000 (i.e. 1.5e-4) of 1; likewise each probability
returned by `predict_outcome` lies in [0,1] and the three sum to within
3/20000 of 1.  The 1e-6 tolerance of the original claim holds only before
rounding (`C5_counterexample_rounded_sum` shows it fails after). -/
theorem C5_amended_probs_valid_sum_within_rounding :
    (∀ (m : PoissonModel) (ha hd aa ad avg hadv : ℝ),
      0 < (m.predict_match ha hd aa ad avg hadv).matrix.home_win_prob
        + (m.predict_match ha hd aa ad avg hadv).matrix.draw_prob
        + (m.predict_match ha hd aa ad avg hadv).matrix.away_win_prob
      ∧ (m.predict_match ha hd aa ad avg hadv).matrix.home_win_prob
          / ((m.predict_match ha hd aa ad avg hadv).matrix.home_win_prob
            + (m.predict_match ha hd aa ad avg hadv).matrix.draw_prob
            + (m.predict_match ha hd aa ad avg hadv).matrix.away_win_prob)
        + (m.predict_match ha hd aa ad avg hadv).matrix.draw_prob
          / ((m.predict_match ha hd aa ad avg hadv).matrix.home_win_prob
            + (m.predict_match ha hd aa ad avg hadv).matrix.draw_prob
            + (m.predict_match ha hd aa ad avg hadv).matrix.away_win_prob)
        + (m.predict_match ha hd aa ad avg hadv).matrix.away_win_prob
          / ((m.predict_match ha hd aa ad avg hadv).matrix.home_win_prob
            + (m.predict_match ha hd aa ad avg hadv).matrix.draw_prob
            + (m.predict_match ha hd aa ad avg hadv).matrix.away_win_prob) = 1
      ∧ (0 ≤ (m.predict_match ha hd aa ad avg hadv).outcome.home_win
          ∧ (m.predict_match ha hd aa ad avg hadv).outcome.home_win ≤ 1)
      ∧ (0 ≤ (m.predict_match ha hd aa ad avg hadv).outcome.draw
          ∧ (m.predict_match ha hd aa ad avg hadv).outcome.draw ≤ 1)
      ∧ (0 ≤ (m.predict_match ha hd aa ad avg hadv).outcome.away_win
          ∧ (m.predict_match ha hd aa ad avg hadv).outcome.away_win ≤ 1)
      ∧ |(m.predict_match ha hd aa ad avg hadv).outcome.home_win
          + (m.predict_match ha hd aa ad avg hadv).outcome.draw
          + (m.predict_match ha hd aa ad avg hadv).outcome.away_win - 1| ≤ 3/20000)
  ∧ (∀ (s : EloRatingSystem) (home away : String),
      (0 ≤ (predict_outcome s home away).1.home_win
        ∧ (predict_outcome s home away).1.home_win ≤ 1)
      ∧ (0 ≤ (predict_outcome s home away).1.draw
        ∧ (predict_outcome s home away).1.draw ≤ 1)
      ∧ (0 ≤ (predict_outcome s home away).1.away_win
        ∧ (predict_outcome s home away).1.away_win ≤ 1)
      ∧ |(predict_outcome s home away).1.home_win
        + (predict_outcome s home away).1.draw
        + (predict_outcome s home away).1.away_win - 1| ≤ 3/20000) := by
  constructor
  · intro m ha hd aa ad avg hadv
    rw [predict_match_matrix_spec, predict_match_outcome_spec,
      predict_match_matrix_spec]
    have hxg1 := calculate_expected_goals_pos ha (if ad > 0 then 1 / ad else 1.0) avg hadv
    have hxg2 := calculate_expected_goals_pos aa (if hd > 0 then 1 / hd else 1.0) avg 0.0
    have hhw := score_matrix_home_win_nonneg m hxg1 hxg2
    have hd0 := score_matrix_draw_pos m hxg1 hxg2
    have haw := score_matrix_away_win_nonneg m hxg1 hxg2
    have hT : 0 < (m.score_matrix
          (calculate_expected_goals ha (if ad > 0 then 1 / ad else 1.0) avg hadv)
          (calculate_expected_goals aa (if hd > 0 then 1 / hd else 1.0) avg 0.0)).home_win_prob
        + (m.score_matrix
          (calculate_expected_goals ha (if ad > 0 then 1 / ad else 1.0) avg hadv)
          (calculate_expected_goals aa (if hd > 0 then 1 / hd else 1.0) avg 0.0)).draw_prob
        + (m.score_matrix
          (calculate_expected_goals ha (if ad > 0 then 1 / ad else 1.0) avg hadv)
          (calculate_expected_goals aa (if hd > 0 then 1 / hd else 1.0) avg 0.0)).away_win_prob := by
      linarith
    have hp := round4_triple_props _ _ _ hhw (le_of_lt hd0) haw hT
    refine ⟨hT, ?_, hp.1, hp.2.1, hp.2.2.1, hp.2.2.2⟩
    field_simp
  · intro s home away
    unfold predict_outcome
    dsimp only
    have hhw : 0 < 1 / (1 + (10:ℝ) ^
        (-((get_elo s home).1 + s.home_advantage - (get_elo (get_elo s home).2 away).1 - 40) / 400)) := by
      have := Real.rpow_pos_of_pos (show (0:ℝ) < 10 by norm_num)
        (-((get_elo s home).1 + s.home_advantage - (get_elo (get_elo s home).2 away).1 - 40) / 400)
      positivity
    have haw : 0 < 1 / (1 + (10:ℝ) ^
        (((get_elo s home).1 + s.home_advantage - (get_elo (get_elo s home).2 away).1 + 40) / 400)) := by
      have := Real.rpow_pos_of_pos (show (0:ℝ) < 10 by norm_num)
        (((get_elo s home).1 + s.home_advantage - (get_elo (get_elo s home).2 away).1 + 40) / 400)
      positivity
    have hdr : (0:ℝ) ≤ max 0.15 (min 0.35
        (1 - 1 / (1 + (10:ℝ) ^
          (-((get_elo s home).1 + s.home_advantage - (get_elo (get_elo s home).2 away).1 - 40) / 400))
          - 1 / (1 + (10:ℝ) ^
          (((get_elo s home).1 + s.home_advantage - (get_elo (get_elo s home).2 away).1 + 40) / 400)))) := by
      have := le_max_left (0.15:ℝ) (min 0.35
        (1 - 1 / (1 + (10:ℝ) ^
          (-((get_elo s home).1 + s.home_advantage - (get_elo (get_elo s home).2 away).1 - 40) / 400))
          - 1 / (1 + (10:ℝ) ^
          (((get_elo s home).1 + s.home_advantage - (get_elo (get_elo s home).2 away).1 + 40) / 400))))
      linarith
    have hp := round4_triple_props _ _ _ (le_of_lt hhw) hdr (le_of_lt haw)
      (by linarith)
    exact ⟨hp.1, hp.2.1, hp.2.2.1, hp.2.2.2⟩

set_option maxHeartbeats 2000000 in
/-- Exact value of the home-win mass of the default-size score matrix with
both expected-goals values 1 (truncated Poisson weights `1/k!`,
renormalised). -/
theorem home_win_prob_eval : (PoissonModel.score_matrix ⟨10⟩ 1 1).home_win_prob
    = 33641238716200/97300488538201 := by
  unfold ScoreMatrix.home_win_prob PoissonModel.score_matrix
  norm_num [goal_distribution_probs_eq, List.range_succ, Nat.factorial]

set_option maxHeartbeats 2000000 in
/-- Exact value of the draw mass of the same matrix. -/
theorem draw_prob_eval : (PoissonModel.score_matrix ⟨10⟩ 1 1).draw_prob
    = 30018011105801/97300488538201 := by
  unfold ScoreMatrix.draw_prob PoissonModel.score_matrix
  norm_num [goal_distribution_probs_eq, List.range_succ, Nat.factorial]

set_option maxHeartbeats 2000000 in
/-- Exact value of the away-win mass of the same matrix. -/
theorem away_win_prob_eval : (PoissonModel.score_matrix ⟨10⟩ 1 1).away_win_prob
    = 33641238716200/97300488538201 := by
  unfold ScoreMatrix.away_win_prob PoissonModel.score_matrix
  norm_num [goal_distribution_probs_eq, List.range_succ, Nat.factorial]

set_option maxHeartbeats 1000000 in
/-- C5 counterexample: with all strengths 1, league average 1 and home
advantage 0 (so both expected-goals values are 1), the three probabilities
returned by `predict_match` round to 0.3457, 0.3085 and 0.3457, whose sum
0.9999 differs from 1 by 1e-4 — far more than the claimed 1e-6. -/
theorem C5_counterexample_rounded_sum :
    ¬ (|(PoissonModel.predict_match ⟨10⟩ 1 1 1 1 1 0).outcome.home_win
        + (PoissonModel.predict_match ⟨10⟩ 1 1 1 1 1 0).outcome.draw
        + (PoissonModel.predict_match ⟨10⟩ 1 1 1 1 1 0).outcome.away_win - 1|
      ≤ 1/1000000) := by
  rw [predict_match_outcome_spec, predict_match_matrix_spec]
  norm_num [calculate_expected_goals]
  rw [home_win_prob_eval, draw_prob_eval, away_win_prob_eval]
  norm_num [round4, round_eq]
  rw [abs_of_nonneg (by norm_num)]
  norm_num

/-! ## Prediction tracker: `src/backend/services/prediction/tracker.py` -/

/-- `PredictionRecord` dataclass (tracker.py lines 26-70).  The
`predicted_scoreline` string `f"{round(home_xG)}-{round(away_xG)}"` is
modelled as the pair of rounded integers (the formatting is injective on
integer pairs, and `scoreline_correct` only ever compares such strings for
equality).  Timestamps are omitted; no claim mentions them. -/
structure PredictionRecord where
  match_id : String
  home_team : String
  away_team : String
  league : String
  match_date : String
  predicted_home_win : ℝ
  predicted_draw : ℝ
  predicted_away_win : ℝ
  predicted_home_goals : ℝ
  predicted_away_goals : ℝ
  predicted_scoreline : ℤ × ℤ
  predicted_winner : String
  confidence : ℝ
  home_elo : ℝ
  away_elo : ℝ
  weather_factor : ℝ
  referee_factor : ℝ
  actual_home_goals : Option ℕ
  actual_away_goals : Option ℕ
  actual_winner : Option String
  winner_correct : Option Bool
  scoreline_correct : Option Bool
  goals_diff : Option ℤ

/-- `PredictionTracker._predictions`: a Python dict keyed by match id,
modelled as an insertion-ordered association list (Python dicts preserve
insertion order, and re-storing a key keeps its position). -/
structure PredictionTracker where
  predictions : List (String × PredictionRecord)

/-- `self._predictions[match_id] = record`: replace in place when the key
exists, otherwise append. -/
def dictSet (l : List (String × PredictionRecord)) (k : String)
    (v : PredictionRecord) : List (String × PredictionRecord) :=
  if l.any (fun p => p.1 == k) then l.map fun p => if p.1 == k then (k, v) else p
  else l ++ [(k, v)]

/-- `self._predictions.get(match_id)` / `match_id in self._predictions`. -/
def dictGet (l : List (String × PredictionRecord)) (k : String) :
    Option PredictionRecord :=
  (l.find? fun p => p.1 == k).map (·.2)

/-- `PredictionTracker.store_prediction` (tracker.py lines 173-232): derives
the predicted winner (argmax with draw winning ties) and the predicted
scoreline (rounded expected goals), stores and returns the record. -/
noncomputable def store_prediction (t : PredictionTracker)
    (match_id home_team away_team league match_date : String)
    (home_win_prob draw_prob away_win_prob home_xG away_xG confidence
      home_elo away_elo weather_factor referee_factor : ℝ) :
    PredictionRecord × PredictionTracker :=
  let predicted_winner :=
    if home_win_prob > draw_prob ∧ home_win_prob > away_win_prob then "home"
    else if away_win_prob > home_win_prob ∧ away_win_prob > draw_prob then "away"
    else "draw"
  let record : PredictionRecord :=
    { match_id := match_id, home_team := home_team, away_team := away_team
      league := league, match_date := match_date
      predicted_home_win := home_win_prob, predicted_draw := draw_prob
      predicted_away_win := away_win_prob
      predicted_home_goals := home_xG, predicted_away_goals := away_xG
      predicted_scoreline := (round home_xG, round away_xG)
      predicted_winner := predicted_winner, confidence := confidence
      home_elo := home_elo, away_elo := away_elo
      weather_factor := weather_factor, referee_factor := referee_factor
      actual_home_goals := none, actual_away_goals := none
      actual_winner := none, winner_correct := none
      scoreline_correct := none, goals_diff := none }
  (record, ⟨dictSet t.predictions match_id record⟩)

/-- `PredictionTracker.update_outcome` (tracker.py lines 234-279): returns
`none` (and leaves the tracker unchanged) when no prediction exists for the
match id; otherwise computes the actual winner and the correctness flags
and stores the updated record. -/
noncomputable def update_outcome (t : PredictionTracker) (match_id : String)
    (home_goals away_goals : ℕ) : Option PredictionRecord × PredictionTracker :=
  match dictGet t.predictions match_id with
  | none => (none, t)
  | some record =>
      let actual_winner :=
        if home_goals > away_goals then "home"
        else if away_goals > home_goals then "away"
        else "draw"
      let record := { record with
        actual_home_goals := some home_goals
        actual_away_goals := some away_goals
        actual_winner := some actual_winner
        winner_correct := some (record.predicted_winner == actual_winner)
        scoreline_correct :=
          some (record.predicted_scoreline == ((home_goals : ℤ), (away_goals : ℤ)))
        goals_diff := some
          |round (record.predicted_home_goals + record.predicted_away_goals)
            - ((home_goals : ℤ) + (away_goals : ℤ))| }
      (some record, ⟨dictSet t.predictions match_id record⟩)

/-- The fields of `ModelAccuracyMetrics` (tracker.py lines 73-111) needed by
the claims: prediction counts, winner accuracy and the Brier score. -/
structure ModelAccuracyMetrics where
  total_predictions : ℕ
  completed_predictions : ℕ
  winner_correct_count : ℕ
  winner_accuracy : ℝ
  brier_score : ℝ

/-- `PredictionTracker.calculate_accuracy_metrics` (tracker.py lines
307-404) with no league/recency filter, restricted to the fields above: the
completed subset, the winner-accuracy counts and the Brier score
`brier_sum / len(completed)` where each record contributes
`sum((p - a)^2)` against its one-hot actual outcome. -/
noncomputable def calculate_accuracy_metrics (t : PredictionTracker) :
    ModelAccuracyMetrics :=
  let predictions := t.predictions.map (·.2)
  let completed := predictions.filter fun p => p.actual_winner.isSome
  if completed.isEmpty then ⟨predictions.length, 0, 0, 0, 0⟩
  else
    let correct_count := (completed.filter fun p => p.winner_correct == some true).length
    let brier_sum := (completed.map fun p =>
      let actual : ℝ × ℝ × ℝ :=
        if p.actual_winner == some "home" then (1, 0, 0)
        else if p.actual_winner == some "draw" then (0, 1, 0)
        else (0, 0, 1)
      (p.predicted_home_win - actual.1)^2 + (p.predicted_draw - actual.2.1)^2
        + (p.predicted_away_win - actual.2.2)^2).sum
    ⟨predictions.length, completed.length, correct_count,
      (correct_count : ℝ) / (completed.length : ℝ),
      brier_sum / (completed.length : ℝ)⟩

/-! ## Claim C8: the concrete (0.5, 0.3, 0.2) away-win scenario -/

/-- C8: storing a prediction with probabilities (0.5, 0.3, 0.2) (predicted
winner "home") and recording an actual 0-1 away win yields
`winner_correct = false`, and the record contributes exactly
0.25 + 0.09 + 0.64 = 0.98 to the Brier-score sum (with this single record
the Brier score itself is 0.98). -/
theorem C8_brier_098_winner_incorrect :
    ((update_outcome
        (store_prediction ⟨[]⟩ "m1" "H" "A" "L" "2024-01-01"
          0.5 0.3 0.2 1.4 1.1 0.5 1500 1500 1 1).2
        "m1" 0 1).1.map (·.winner_correct)) = some (some false)
  ∧ (calculate_accuracy_metrics
      (update_outcome
        (store_prediction ⟨[]⟩ "m1" "H" "A" "L" "2024-01-01"
          0.5 0.3 0.2 1.4 1.1 0.5 1500 1500 1 1).2
        "m1" 0 1).2).brier_score = 0.98
  ∧ ((0.5 : ℝ) - 0)^2 + ((0.3 : ℝ) - 0)^2 + ((0.2 : ℝ) - 1)^2 = 0.98 := by
  refine ⟨?_, ?_, by norm_num⟩ <;>
    norm_num +decide [store_prediction, update_outcome, calculate_accuracy_metrics,
      dictSet, dictGet, round_eq]

/-! ## League simulator:
`src/backend/services/simulation/league_simulator.py` -/

/-- `LeagueSimulator._calculate_points` (league_simulator.py lines
121-132). -/
def calculate_points (home_goals away_goals : ℕ) : ℤ × ℤ :=
  if home_goals > away_goals then (3, 0)
  else if home_goals < away_goals then (0, 3)
  else (1, 1)

/-- A remaining fixture as read from the fixture dict (lines 191-195): the
team names may be missing (`None`). -/
structure Fixture where
  home_team : Option String
  away_team : Option String

/-- The per-trial mutable state of `simulate_league` (lines 179-187):
`sim_points` and `sim_gd`, keyed by team name. -/
structure TrialState where
  sim_points : String → ℤ
  sim_gd : String → ℤ

/-- One fixture of one trial (lines 190-215): missing names or unknown
teams skip the fixture; otherwise the drawn goals award points via
`_calculate_points` and adjust both goal differences.  The two dict
updates are sequential, as in the source.  `known` is the
`team_data` membership test; the drawn goals for this fixture are given by
`goals` (the Poisson draw of `_simulate_match`). -/
def trial_step (known : String → Bool) (st : TrialState) (fx : Fixture)
    (goals : ℕ × ℕ) : TrialState :=
  match fx.home_team, fx.away_team with
  | some home, some away =>
      if known home ∧ known away then
        let hg := goals.1
        let ag := goals.2
        let pts := calculate_points hg ag
        let p1 := fun t => if t = home then st.sim_points t + pts.1 else st.sim_points t
        let p2 := fun t => if t = away then p1 t + pts.2 else p1 t
        let g1 := fun t => if t = home then st.sim_gd t + ((hg : ℤ) - (ag : ℤ)) else st.sim_gd t
        let g2 := fun t => if t = away then g1 t + ((ag : ℤ) - (hg : ℤ)) else g1 t
        ⟨p2, g2⟩
      else st
  | _, _ => st

/-- One complete trial (the body of the `for fixture in remaining_fixtures`
loop): fold over the fixtures, each paired with its drawn goals. -/
def run_trial (known : String → Bool) (st : TrialState)
    (fds : List (Fixture × ℕ × ℕ)) : TrialState :=
  fds.foldl (fun st fd => trial_step known st fd.1 fd.2) st

/-! ## Claim C10: points only increase within a trial -/

/-- Each team's points never decrease across one fixture of a trial. -/
theorem trial_step_points_mono (known : String → Bool) (st : TrialState)
    (fx : Fixture) (goals : ℕ × ℕ) (team : String) :
    st.sim_points team ≤ (trial_step known st fx goals).sim_points team := by
  unfold trial_step
  have hp : 0 ≤ (calculate_points goals.1 goals.2).1
      ∧ 0 ≤ (calculate_points goals.1 goals.2).2 := by
    unfold calculate_points
    split_ifs <;> norm_num
  rcases fx with ⟨_ | home, _ | away⟩ <;> dsimp only <;> try rfl
  split_ifs with hk
  · dsimp only
    split_ifs <;> linarith [hp.1, hp.2]
  · rfl

/-- C10: every resolved fixture awards exactly (3,0), (0,3) or (1,1)
points; consequently, within a trial each team's simulated points total is
non-decreasing across the fixtures (every prefix of the fixture list gives
at most the final points), and the final simulated points are at least the
points the trial started from — whatever goals the random draws produce. -/
theorem C10_points_nondecreasing (known : String → Bool) (st : TrialState)
    (fds : List (Fixture × ℕ × ℕ)) (team : String) (n : ℕ) :
    (∀ hg ag : ℕ, calculate_points hg ag = (3, 0) ∨ calculate_points hg ag = (0, 3)
      ∨ calculate_points hg ag = (1, 1))
  ∧ (run_trial known st (fds.take n)).sim_points team
      ≤ (run_trial known st fds).sim_points team
  ∧ st.sim_points team ≤ (run_trial known st fds).sim_points team := by
  have hstep : ∀ (st : TrialState) (fds : List (Fixture × ℕ × ℕ)),
      st.sim_points team ≤ (run_trial known st fds).sim_points team := by
    intro st fds
    induction fds generalizing st with
    | nil => exact le_refl _
    | cons fd rest ih =>
        calc st.sim_points team
            ≤ (trial_step known st fd.1 fd.2).sim_points team :=
              trial_step_points_mono known st fd.1 fd.2 team
          _ ≤ _ := ih _
  refine ⟨?_, ?_, hstep st fds⟩
  · intro hg ag
    unfold calculate_points
    split_ifs <;> simp
  · conv_rhs => rw [← List.take_append_drop n fds]
    unfold run_trial
    rw [List.foldl_append]
    exact hstep _ (fds.drop n)

/-! ## Knockout simulator:
`src/backend/services/simulation/knockout_simulator.py`

Randomness is supplied by an explicit oracle: `poisson k lam` is the k-th
`np.random.poisson(lam)` draw, `uniform k` the k-th `random.random()`, and
`r16Bracket trial` the randomized Round-of-16 bracket `_generate_cl_bracket`
produces for one Champions-League trial (its shuffles are random).  The
draw counter `k` is threaded through every function in simulation order. -/

/-- `KnockoutTeam` dataclass (knockout_simulator.py lines 31-40). -/
structure KnockoutTeam where
  name : String
  team_id : Option ℕ
  elo : ℝ
  group_position : ℕ
  group : String
  country : String
  coefficient : ℝ

/-- The random sources consumed by a knockout simulation. -/
structure RandomOracle where
  poisson : ℕ → ℝ → ℕ
  uniform : ℕ → ℝ
  r16Bracket : ℕ → List (String × String)

/-- `KnockoutSimulator.__init__` (lines 94-102). -/
structure KnockoutSimulator where
  n_simulations : ℕ
  home_advantage : ℝ

/-- `TournamentSimulationResult` (lines 53-75), the fields the simulators
fill in. -/
structure TournamentSimulationResult where
  tournament_name : String
  n_simulations : ℕ
  winner_probabilities : List (String × ℝ)
  semi_final_probabilities : List (String × ℝ)
  final_probabilities : List (String × ℝ)
  most_likely_winner : String
  winner_probability : ℝ

/-- `KnockoutSimulator._calculate_win_probability` (lines 104-126). -/
noncomputable def calculate_win_probability (sim : KnockoutSimulator)
    (team_elo opponent_elo : ℝ) (is_home is_neutral : Bool) : ℝ :=
  let home_bonus :=
    if is_neutral then 0
    else if is_home then sim.home_advantage * 100
    else -(sim.home_advantage * 100)
  let adjusted_diff := (team_elo - opponent_elo + home_bonus) / 400
  1 / (1 + (10 : ℝ) ^ (-adjusted_diff))

/-- `KnockoutSimulator._simulate_match` (lines 128-153): returns the two
drawn goal counts and the advanced draw counter. -/
noncomputable def simulate_match (sim : KnockoutSimulator) (o : RandomOracle)
    (k : ℕ) (home away : KnockoutTeam) (is_neutral : Bool) : (ℕ × ℕ) × ℕ :=
  let elo_diff := (home.elo - away.elo) / 400
  let home_xG :=
    if is_neutral then 1.35 * (1 + elo_diff * 0.25)
    else 1.35 * (1 + elo_diff * 0.25) + sim.home_advantage
  let away_xG := 1.35 * (1 - elo_diff * 0.25)
  let home_xG := max 0.5 (min 3.5 home_xG)
  let away_xG := max 0.3 (min 3.0 away_xG)
  ((o.poisson k home_xG, o.poisson (k + 1) away_xG), k + 2)

/-- `KnockoutSimulator._simulate_single_match` (lines 188-206). -/
noncomputable def simulate_single_match (sim : KnockoutSimulator) (o : RandomOracle)
    (k : ℕ) (team_a team_b : KnockoutTeam) (is_neutral : Bool) : KnockoutTeam × ℕ :=
  let r := simulate_match sim o k team_a team_b is_neutral
  if r.1.1 > r.1.2 then (team_a, r.2)
  else if r.1.2 > r.1.1 then (team_b, r.2)
  else
    let tie_breaker := calculate_win_probability sim team_a.elo team_b.elo false true
    if o.uniform r.2 < tie_breaker then (team_a, r.2 + 1) else (team_b, r.2 + 1)

/-- `KnockoutSimulator._simulate_two_legged_tie` (lines 155-186): two legs,
aggregate score, Elo-weighted coin flip on an aggregate tie (no away-goals
rule). -/
noncomputable def simulate_two_legged_tie (sim : KnockoutSimulator) (o : RandomOracle)
    (k : ℕ) (team_a team_b : KnockoutTeam) : KnockoutTeam × ℕ :=
  let r1 := simulate_match sim o k team_a team_b false
  let r2 := simulate_match sim o r1.2 team_b team_a false
  let team_a_total := r1.1.1 + r2.1.2
  let team_b_total := r1.1.2 + r2.1.1
  if team_a_total > team_b_total then (team_a, r2.2)
  else if team_b_total > team_a_total then (team_b, r2.2)
  else
    let tie_breaker := calculate_win_probability sim team_a.elo team_b.elo false true
    if o.uniform r2.2 < tie_breaker then (team_a, r2.2 + 1) else (team_b, r2.2 + 1)

/-- A counter dict (`collections.Counter`), insertion-ordered. -/
def counterIncr (l : List (String × ℕ)) (s : String) : List (String × ℕ) :=
  if l.any (fun p => p.1 == s) then
    l.map fun p => if p.1 == s then (p.1, p.2 + 1) else p
  else l ++ [(s, 1)]

/-- `Counter.most_common(1)[0]` with the `("Unknown", 0)` fallback of lines
278 and 429: the first entry of maximal count. -/
def mostCommon1 (l : List (String × ℕ)) : String × ℕ :=
  l.foldl (fun best p => if p.2 > best.2 then p else best) ("Unknown", 0)

/-- One single-match round (`for i in range(0, 2*m, 2)` over a team list,
e.g. lines 381-394): plays adjacent pairs, collecting the winners; a
trailing odd team is dropped (unreachable under the 16-team guard). -/
noncomputable def round_singles (sim : KnockoutSimulator) (o : RandomOracle) :
    ℕ → List KnockoutTeam → List KnockoutTeam × ℕ
  | k, a :: b :: rest =>
      let r := simulate_single_match sim o k a b true
      let rr := round_singles sim o r.2 rest
      (r.1 :: rr.1, rr.2)
  | k, _ => ([], k)

/-- One two-legged round over adjacent pairs (`for i in range(0, 8, 2)` with
the `if i + 1 < len(...)` guard, lines 249-263), also counting each winner
in the given counter. -/
noncomputable def round_two_legged (sim : KnockoutSimulator) (o : RandomOracle) :
    ℕ → List KnockoutTeam → List (String × ℕ) →
      (List KnockoutTeam × List (String × ℕ)) × ℕ
  | k, a :: b :: rest, counts =>
      let r := simulate_two_legged_tie sim o k a b
      let rr := round_two_legged sim o r.2 rest (counterIncr counts r.1.name)
      ((r.1 :: rr.1.1, rr.1.2), rr.2)
  | k, _, counts => (([], counts), k)

/-- `team_lookup[name]` (line 227/244): dict lookup by team name.  A name
outside the team list falls back to a default placeholder (the Python code
would raise `KeyError`; this can only happen for a caller-supplied bracket
naming unknown teams, which no claim exercises). -/
noncomputable def team_lookup (teams : List KnockoutTeam) (name : String) : KnockoutTeam :=
  match teams.find? (fun t => t.name == name) with
  | some t => t
  | none => ⟨name, none, 1500, 1, "", "", 0⟩

/-- The accumulated counters of one tournament simulation. -/
structure KnockoutCounts where
  winner_counts : List (String × ℕ)
  semi_counts : List (String × ℕ)
  final_counts : List (String × ℕ)

/-- The Round-of-16 loop of a Champions-League trial (lines 242-247): a
two-legged tie for every bracket pair, collecting the winners. -/
noncomputable def r16_round (sim : KnockoutSimulator) (o : RandomOracle) :
    ℕ → List (KnockoutTeam × KnockoutTeam) → List KnockoutTeam × ℕ
  | k, p :: rest =>
      let r := simulate_two_legged_tie sim o k p.1 p.2
      let rr := r16_round sim o r.2 rest
      (r.1 :: rr.1, rr.2)
  | k, [] => ([], k)

/-- One Champions-League trial (lines 234-270): Round of 16 (bracket from
the caller or the per-trial randomized bracket), two-legged quarter- and
semi-finals (counting semi-finalists and finalists), then a single neutral
final when exactly two finalists remain. -/
noncomputable def cl_trial (sim : KnockoutSimulator) (o : RandomOracle)
    (teams : List KnockoutTeam) (bracket : Option (List (String × String)))
    (trial : ℕ) (k : ℕ) (c : KnockoutCounts) : KnockoutCounts × ℕ :=
  let r16_matches := match bracket with
    | some b => b
    | none => o.r16Bracket trial
  let qf := r16_round sim o k (r16_matches.map fun p =>
    (team_lookup teams p.1, team_lookup teams p.2))
  let sf := round_two_legged sim o qf.2 qf.1 c.semi_counts
  let fin := round_two_legged sim o sf.2 sf.1.1 c.final_counts
  match fin.1.1 with
  | [t1, t2] =>
      let champ := simulate_single_match sim o fin.2 t1 t2 true
      (⟨counterIncr c.winner_counts champ.1.name, sf.1.2, fin.1.2⟩, champ.2)
  | _ => (⟨c.winner_counts, sf.1.2, fin.1.2⟩, fin.2)

open Classical in
/-- The semi-final loop of a World-Cup trial (lines 401-409): plays
adjacent pairs, collecting winners and losers (`loser = sf_teams[i] if
winner == sf_teams[i+1] else sf_teams[i+1]`). -/
noncomputable def sf_round (sim : KnockoutSimulator) (o : RandomOracle) :
    ℕ → List KnockoutTeam → (List KnockoutTeam × List KnockoutTeam) × ℕ
  | k, a :: b :: rest =>
      let r := simulate_single_match sim o k a b true
      let loser := if r.1 = b then a else b
      let rr := sf_round sim o r.2 rest
      ((r.1 :: rr.1.1, loser :: rr.1.2), rr.2)
  | k, _ => (([], []), k)

/-- The counters accumulated by `simulate_world_cup` (lines 372-375). -/
structure WorldCupCounts where
  winner_counts : List (String × ℕ)
  semi_counts : List (String × ℕ)
  final_counts : List (String × ℕ)
  third_place_counts : List (String × ℕ)

/-- One World-Cup trial (lines 377-424): single neutral matches throughout,
semi-finalist and finalist counting, a third-place match between the two
semi-final losers, then the final. -/
noncomputable def wc_trial (sim : KnockoutSimulator) (o : RandomOracle)
    (teams : List KnockoutTeam) (k : ℕ) (c : WorldCupCounts) :
    WorldCupCounts × ℕ :=
  let r16 := round_singles sim o k teams
  let qf := round_singles sim o r16.2 r16.1
  let semi_counts := qf.1.foldl (fun cnt t => counterIncr cnt t.name) c.semi_counts
  let sf := sf_round sim o qf.2 qf.1
  let tp : List (String × ℕ) × ℕ :=
    match sf.1.2 with
    | [l1, l2] =>
        let w := simulate_single_match sim o sf.2 l1 l2 true
        (counterIncr c.third_place_counts w.1.name, w.2)
    | _ => (c.third_place_counts, sf.2)
  let final_counts := sf.1.1.foldl (fun cnt t => counterIncr cnt t.name) c.final_counts
  match sf.1.1 with
  | [w1, w2] =>
      let champ := simulate_single_match sim o tp.2 w1 w2 true
      (⟨counterIncr c.winner_counts champ.1.name, semi_counts, final_counts, tp.1⟩,
        champ.2)
  | _ => (⟨c.winner_counts, semi_counts, final_counts, tp.1⟩, tp.2)

/-- The `for _ in range(self.n_simulations)` loop of
`simulate_champions_league`; `trial` numbers the current trial (it selects
the per-trial randomized bracket). -/
noncomputable def cl_loop (sim : KnockoutSimulator) (o : RandomOracle)
    (teams : List KnockoutTeam) (bracket : Option (List (String × String))) :
    ℕ → ℕ → ℕ → KnockoutCounts → KnockoutCounts × ℕ
  | 0, _, k, c => (c, k)
  | n + 1, trial, k, c =>
      let r := cl_trial sim o teams bracket trial k c
      cl_loop sim o teams bracket n (trial + 1) r.2 r.1

/-- The `for _ in range(self.n_simulations)` loop of `simulate_world_cup`. -/
noncomputable def wc_loop (sim : KnockoutSimulator) (o : RandomOracle)
    (teams : List KnockoutTeam) : ℕ → ℕ → WorldCupCounts → WorldCupCounts × ℕ
  | 0, k, c => (c, k)
  | n + 1, k, c =>
      let r := wc_trial sim o teams k c
      wc_loop sim o teams n r.2 r.1

/-- Turn a counter into the probability dict `{team: count / total}`. -/
noncomputable def countsToProbs (l : List (String × ℕ)) (total : ℕ) :
    List (String × ℝ) :=
  l.map fun p => (p.1, (p.2 : ℝ) / (total : ℝ))

/-- `KnockoutSimulator.simulate_champions_league` (lines 208-288): raises
`ValueError` — modelled as `Except.error` — when the team list does not
have exactly 16 entries, before any simulation; otherwise runs the trials
and assembles the result. -/
noncomputable def simulate_champions_league (sim : KnockoutSimulator)
    (o : RandomOracle) (teams : List KnockoutTeam)
    (bracket : Option (List (String × String))) :
    Except String TournamentSimulationResult :=
  if teams.length ≠ 16 then
    .error "Champions League knockout requires exactly 16 teams"
  else
    let r := cl_loop sim o teams bracket sim.n_simulations 0 0 ⟨[], [], []⟩
    let c := r.1
    let total := sim.n_simulations
    let ml := mostCommon1 c.winner_counts
    .ok ⟨"UEFA Champions League", sim.n_simulations,
      countsToProbs c.winner_counts total,
      countsToProbs c.semi_counts total,
      countsToProbs c.final_counts total,
      ml.1,
      if total > 0 then (ml.2 : ℝ) / (total : ℝ) else 0⟩

/-- `KnockoutSimulator.simulate_world_cup` (lines 356-439): raises
`ValueError` — modelled as `Except.error` — when the team list does not
have exactly 16 entries, before any simulation; otherwise runs the trials
and assembles the result. -/
noncomputable def simulate_world_cup (sim : KnockoutSimulator)
    (o : RandomOracle) (teams : List KnockoutTeam) :
    Except String TournamentSimulationResult :=
  if teams.length ≠ 16 then
    .error "World Cup knockout requires exactly 16 teams"
  else
    let r := wc_loop sim o teams sim.n_simulations 0 ⟨[], [], [], []⟩
    let c := r.1
    let total := sim.n_simulations
    let ml := mostCommon1 c.winner_counts
    .ok ⟨"FIFA World Cup", sim.n_simulations,
      countsToProbs c.winner_counts total,
      countsToProbs c.semi_counts total,
      countsToProbs c.final_counts total,
      ml.1,
      if total > 0 then (ml.2 : ℝ) / (total : ℝ) else 0⟩

/-! ## Claim C7: the exactly-16-teams precondition -/

/-- C7: `simulate_champions_league` and `simulate_world_cup` fail with the
configuration error exactly when the team list does not contain 16 teams;
with any other count the error is raised before simulating (the result does
not depend on the random oracle at all), and with exactly 16 teams the
guard never fires (the result is `ok`). -/
theorem C7_sixteen_team_guard :
    (∀ (sim : KnockoutSimulator) (o : RandomOracle) (teams : List KnockoutTeam)
        (bracket : Option (List (String × String))),
      ((∃ e, simulate_champions_league sim o teams bracket = .error e)
        ↔ teams.length ≠ 16)
      ∧ (teams.length ≠ 16 → ∀ o2 : RandomOracle,
          simulate_champions_league sim o teams bracket
            = simulate_champions_league sim o2 teams bracket))
  ∧ (∀ (sim : KnockoutSimulator) (o : RandomOracle) (teams : List KnockoutTeam),
      ((∃ e, simulate_world_cup sim o teams = .error e) ↔ teams.length ≠ 16)
      ∧ (teams.length ≠ 16 → ∀ o2 : RandomOracle,
          simulate_world_cup sim o teams = simulate_world_cup sim o2 teams)) := by
  constructor
  · intro sim o teams bracket
    constructor
    · constructor
      · rintro ⟨e, he⟩
        intro hlen
        unfold simulate_champions_league at he
        rw [if_neg (by simp [hlen])] at he
        exact absurd he (by simp)
      · intro hne
        refine ⟨"Champions League knockout requires exactly 16 teams", ?_⟩
        unfold simulate_champions_league
        rw [if_pos hne]
    · intro hne o2
      unfold simulate_champions_league
      rw [if_pos hne, if_pos hne]
  · intro sim o teams
    constructor
    · constructor
      · rintro ⟨e, he⟩
        intro hlen
        unfold simulate_world_cup at he
        rw [if_neg (by simp [hlen])] at he
        exact absurd he (by simp)
      · intro hne
        refine ⟨"World Cup knockout requires exactly 16 teams", ?_⟩
        unfold simulate_world_cup
        rw [if_pos hne]
    · intro hne o2
      unfold simulate_world_cup
      rw [if_pos hne, if_pos hne]

/-- Witness for `C7_sixteen_team_guard`: the empty team list (count 0) is
rejected by both simulators, independently of the oracle. -/
theorem C7_sixteen_team_guard_witness :
    (∃ e, simulate_world_cup ⟨2, 0.3⟩ ⟨fun _ _ => 0, fun _ => 0, fun _ => []⟩ []
      = Except.error e)
  ∧ simulate_champions_league ⟨2, 0.3⟩ ⟨fun _ _ => 0, fun _ => 0, fun _ => []⟩ [] none
      = simulate_champions_league ⟨2, 0.3⟩ ⟨fun _ _ => 1, fun _ => 1, fun _ => []⟩ [] none :=
  ⟨(C7_sixteen_team_guard.2 ⟨2, 0.3⟩ ⟨fun _ _ => 0, fun _ => 0, fun _ => []⟩ []).1.mpr
      (by norm_num),
   (C7_sixteen_team_guard.1 ⟨2, 0.3⟩ ⟨fun _ _ => 0, fun _ => 0, fun _ => []⟩ [] none).2
      (by norm_num) ⟨fun _ _ => 1, fun _ => 1, fun _ => []⟩⟩

end SoccerPredictor
